import Mathlib

/-!
# Verification of the X402 Access & Billing Guard

A shallow embedding of `src/services/x402Service.ts` (class `X402Service`)
from the BlockAi backend.  The Prisma database is modelled as an explicit
record of tables (lists of rows); each service method becomes a pure
function from inputs and the current database to a result paired with the
updated database.  JavaScript `Date` values are modelled by their calendar
components; the only operation the service performs on them is `getDate()`
(day of month), used for the daily-reset comparison.

Monetary amounts (`10.00` USDC, payment `amount: 10.0`) are exact decimal
constants, represented as rationals.
-/

/-- A JavaScript `Date`, reduced to the calendar components the service can
observe.  `getDate` below mirrors JS `Date.prototype.getDate()` (day of
month). -/
structure JSDate where
  year : Nat
  month : Nat
  day : Nat
deriving DecidableEq, Repr

/-- JS `Date.prototype.getDate()`: the day of the month. -/
def JSDate.getDate (d : JSDate) : Nat := d.day

/-- Row of the `APIKey` table (`prisma.aPIKey`). -/
structure APIKey where
  id : Nat
  key : String
  userId : String
  isActive : Bool
  usageCount : Nat
  lastUsedAt : Option JSDate
deriving DecidableEq, Repr

/-- Row of the `User` table, restricted to the fields the guard reads. -/
structure User where
  id : String
  walletAddress : Option String
deriving DecidableEq, Repr

/-- Row of the `BillingState` table (one-to-one with `User`). -/
structure BillingState where
  userId : String
  tier : String
  credits : Int
  dailyUsageCount : Nat
  lastResetAt : JSDate
deriving DecidableEq, Repr

/-- Row of the append-only `UsageLog` table, restricted to the fields the
service writes explicitly (`createdAt` is a storage default the guard never
reads). -/
structure UsageLog where
  userId : String
  action : String
  cost : Int
deriving DecidableEq, Repr

/-- Row of the append-only `Payment` table. -/
structure Payment where
  txHash : String
  walletAddress : String
  userId : String
  amount : ℚ
  status : String
deriving DecidableEq, Repr

/-- The Prisma database: one list of rows per table touched by the guard. -/
structure DB where
  apiKeys : List APIKey
  users : List User
  billingStates : List BillingState
  usageLogs : List UsageLog
  payments : List Payment
deriving DecidableEq, Repr

/-- The payload built by `generatePaymentRequest`. -/
structure PaymentInfo where
  amount : ℚ
  currency : String
  address : String
  network : String
  referenceId : String
deriving DecidableEq, Repr

/-- The `AccessResult` interface.  Optional TS fields (left `undefined` on
some paths) become `Option`s. -/
structure AccessResult where
  allowed : Bool
  reason : Option String
  paymentRequired : Option Bool
  paymentInfo : Option PaymentInfo
deriving DecidableEq, Repr

-- Configuration constants (top of x402Service.ts).

def COST_PER_REQUEST_FREE : Int := 1

def DAILY_LIMIT_FREE : Nat := 10

def DAILY_LIMIT_PAID : Nat := 1000

/-- `prisma.billingState.findUnique({ where: { userId } })`. -/
def findBilling (db : DB) (userId : String) : Option BillingState :=
  db.billingStates.find? (fun b => b.userId == userId)

/-- `prisma.billingState.update({ where: { userId: b.userId }, data: ... })`
with the full replacement row `b` already computed. -/
def setBilling (db : DB) (b : BillingState) : DB :=
  { db with billingStates :=
      db.billingStates.map (fun x => if x.userId == b.userId then b else x) }

/-- Modelled from the spec: the Prisma schema file (the `BillingState` model
with its column defaults) is not among the sources; per the spec, a lazily
created `BillingState` defaults to tier FREE, a starting credit allotment of
20, daily usage 0, and last reset = now. -/
def defaultBillingState (userId : String) (now : JSDate) : BillingState :=
  { userId := userId, tier := "FREE", credits := 20
    dailyUsageCount := 0, lastResetAt := now }

/-- `X402Service.generatePaymentRequest(userId?)`: fixed policy values plus
the optional user id as `referenceId`. -/
def generatePaymentRequest (userId : Option String) : PaymentInfo :=
  { amount := 10
    currency := "USDC"
    address := "0x742d35Cc6634C0532925a3b844Bc454e4438f44e"
    network := "Base Sepolia"
    referenceId := userId.getD "anonymous" }

/-- The `{ allowed: false, reason, paymentRequired: true, paymentInfo }`
denial shape used by steps 5 and 6 of `checkAccess`. -/
def denyResult (reason : String) (userId : String) : AccessResult :=
  { allowed := false, reason := some reason, paymentRequired := some true
    paymentInfo := some (generatePaymentRequest (some userId)) }

/-- Steps 5-8 of `X402Service.checkAccess`: limit check, credit check,
usage/credit update and usage logging, given the loaded (and possibly
already reset) billing row. -/
def checkLimits (billing : BillingState) (userId : String) (db : DB) :
    AccessResult × DB :=
  let limit := if billing.tier == "PAID" then DAILY_LIMIT_PAID else DAILY_LIMIT_FREE
  if limit ≤ billing.dailyUsageCount then
    (denyResult "Daily Limit Exceeded" userId, db)
  else if billing.credits < COST_PER_REQUEST_FREE ∧ billing.tier ≠ "PAID" then
    (denyResult "Insufficient Credits" userId, db)
  else
    let cost : Int := if billing.tier == "PAID" then 0 else COST_PER_REQUEST_FREE
    let updated := { billing with
      dailyUsageCount := billing.dailyUsageCount + 1
      credits := billing.credits - cost }
    let db1 := setBilling db updated
    let db2 := { db1 with usageLogs :=
      db1.usageLogs ++ [{ userId := userId, action := "API_RESOURCE", cost := cost }] }
    ({ allowed := true, reason := none, paymentRequired := none, paymentInfo := none }, db2)

/-- Step 4 of `X402Service.checkAccess`: the daily reset
(`billing.lastResetAt.getDate() !== now.getDate()`), persisted before the
limit evaluation, followed by `checkLimits`. -/
def resetAndCheck (billing : BillingState) (userId : String) (now : JSDate)
    (db : DB) : AccessResult × DB :=
  if billing.lastResetAt.getDate ≠ now.getDate then
    let reset := { billing with dailyUsageCount := 0, lastResetAt := now }
    checkLimits reset userId (setBilling db reset)
  else
    checkLimits billing userId db

/-- `X402Service.checkAccess(userId)`: load (or lazily create) the billing
row, then daily reset, then limits.  `now` is the `new Date()` the method
takes; the storage default `lastResetAt = now` of a lazily created row uses
the same instant. -/
def checkAccess (userId : String) (now : JSDate) (db : DB) : AccessResult × DB :=
  match findBilling db userId with
  | some billing => resetAndCheck billing userId now db
  | none =>
    let billing := defaultBillingState userId now
    resetAndCheck billing userId now
      { db with billingStates := db.billingStates ++ [billing] }

/-- `X402Service.guardWithUser(userId)`. -/
def guardWithUser (userId : String) (now : JSDate) (db : DB) : AccessResult × DB :=
  checkAccess userId now db

/-- The `{ allowed: false, reason: "Invalid or Inactive API Key" }` result
(no payment fields on this path). -/
def invalidKeyResult : AccessResult :=
  { allowed := false, reason := some "Invalid or Inactive API Key"
    paymentRequired := none, paymentInfo := none }

/-- The anonymous denial of `accessGuard`: `Authentication Required` with a
payment request whose `referenceId` is `"anonymous"`. -/
def anonymousResult : AccessResult :=
  { allowed := false, reason := some "Authentication Required"
    paymentRequired := some true
    paymentInfo := some (generatePaymentRequest none) }

/-- JS truthiness of an optional string argument (`if (apiKeyStr)`): absent
and empty strings are falsy. -/
def jsTruthy : Option String → Bool
  | none => false
  | some s => s ≠ ""

/-- `prisma.aPIKey.findUnique({ where: { key } })`. -/
def findAPIKey (db : DB) (key : String) : Option APIKey :=
  db.apiKeys.find? (fun a => a.key == key)

/-- `prisma.aPIKey.update({ where: { id }, data: { usageCount: { increment: 1 },
lastUsedAt: new Date() } })`. -/
def trackAPIKeyUsage (db : DB) (id : Nat) (now : JSDate) : DB :=
  { db with apiKeys := db.apiKeys.map (fun a =>
      if a.id == id then { a with usageCount := a.usageCount + 1, lastUsedAt := some now }
      else a) }

/-- `prisma.user.findUnique({ where: { walletAddress } })`, projected to the
user id. -/
def resolveWallet (db : DB) (walletAddress : String) : Option String :=
  (db.users.find? (fun u => u.walletAddress == some walletAddress)).map (fun u => u.id)

/-- The tail of `accessGuard` after identity resolution: `if (!userId)`
(JS-falsy, so an empty id also counts as unresolved) return the anonymous
denial, else run `checkAccess`. -/
def guardResolved (userId : Option String) (now : JSDate) (db : DB) :
    AccessResult × DB :=
  match userId with
  | some uid => if uid = "" then (anonymousResult, db) else checkAccess uid now db
  | none => (anonymousResult, db)

/-- `X402Service.accessGuard(apiKeyStr?, walletAddress?)`.  An API key, when
truthy, is looked up; an absent or inactive key short-circuits with
`invalidKeyResult` before any ledger access; a valid key has its usage
tracked and resolves the user.  Otherwise a truthy wallet address may
resolve the user.  Unresolved callers get the anonymous denial. -/
def accessGuard (apiKeyStr walletAddress : Option String) (now : JSDate)
    (db : DB) : AccessResult × DB :=
  if jsTruthy apiKeyStr then
    match findAPIKey db (apiKeyStr.getD "") with
    | none => (invalidKeyResult, db)
    | some apiKey =>
      if apiKey.isActive then
        guardResolved (some apiKey.userId) now (trackAPIKeyUsage db apiKey.id now)
      else (invalidKeyResult, db)
  else if jsTruthy walletAddress then
    guardResolved (resolveWallet db (walletAddress.getD "")) now db
  else
    guardResolved none now db

/-- `X402Service.mockProcessPayment(txHash, walletAddress, userId)`: append a
COMPLETED payment record, then upsert the billing row (create with tier PAID
and 120 credits, or set tier PAID and add the 100-credit bonus).  `now`
stands for the storage default `lastResetAt` of a freshly created row. -/
def mockProcessPayment (txHash walletAddress userId : String) (now : JSDate)
    (db : DB) : (Bool × String) × DB :=
  let db1 := { db with payments := db.payments ++
    [{ txHash := txHash, walletAddress := walletAddress, userId := userId
       amount := 10, status := "COMPLETED" }] }
  let db2 :=
    match findBilling db1 userId with
    | none =>
      { db1 with billingStates := db1.billingStates ++
        [{ userId := userId, tier := "PAID", credits := 120
           dailyUsageCount := 0, lastResetAt := now }] }
    | some b =>
      setBilling db1 { b with tier := "PAID", credits := b.credits + 100 }
  ((true, "PAID"), db2)

/-- `X402Service.getBilling(userId)`. -/
def getBilling (userId : String) (db : DB) : Option BillingState :=
  findBilling db userId

/-! ## Basic lemmas about the table operations -/

/-- A found billing row belongs to the queried user. -/
theorem findBilling_userId {db : DB} {uid : String} {b : BillingState}
    (h : findBilling db uid = some b) : b.userId = uid := by
  have := List.find?_some h
  simpa using this

/-- List form of the row-update lemma: replacing the rows of user `uid` in a
list that contains one makes the lookup return the replacement. -/
theorem find?_update_of_found {l : List BillingState} {uid : String}
    {b b' : BillingState} (hb' : b'.userId = uid)
    (h : l.find? (fun x => x.userId == uid) = some b) :
    (l.map (fun x => if x.userId == b'.userId then b' else x)).find?
      (fun x => x.userId == uid) = some b' := by
  induction l with
  | nil => simp at h
  | cons a t ih =>
    by_cases ha : a.userId = uid
    · rw [List.map_cons]
      have h1 : (if a.userId == b'.userId then b' else a) = b' := by
        rw [hb']; simp [ha]
      rw [h1, List.find?_cons_of_pos _ (by simp [hb'])]
    · rw [List.find?_cons_of_neg _ (by simp [ha])] at h
      rw [List.map_cons]
      have h1 : (if a.userId == b'.userId then b' else a) = a := by
        rw [hb']; simp [ha]
      rw [h1, List.find?_cons_of_neg _ (by simp [ha])]
      exact ih h

/-- Updating the row of a user that is present makes the lookup return the
new row. -/
theorem findBilling_setBilling {db : DB} {uid : String} {b b' : BillingState}
    (h : findBilling db uid = some b) (hb' : b'.userId = uid) :
    findBilling (setBilling db b') uid = some b' := by
  unfold findBilling at h
  unfold findBilling setBilling
  exact find?_update_of_found hb' h

/-- `setBilling` leaves every other table unchanged. -/
theorem setBilling_usageLogs (db : DB) (b : BillingState) :
    (setBilling db b).usageLogs = db.usageLogs := rfl

theorem setBilling_apiKeys (db : DB) (b : BillingState) :
    (setBilling db b).apiKeys = db.apiKeys := rfl

/-- The allowed result `{ allowed: true }`. -/
def allowedResult : AccessResult :=
  { allowed := true, reason := none, paymentRequired := none, paymentInfo := none }

/-- A FREE-tier row under the daily limit and with enough credits passes
`checkLimits`: usage is incremented, one credit deducted, one usage row
logged. -/
theorem checkLimits_free_allow {b : BillingState} {uid : String} {db : DB}
    (htier : b.tier = "FREE") (hcount : b.dailyUsageCount < 10)
    (hcred : 1 ≤ b.credits) :
    checkLimits b uid db =
      (allowedResult,
       { setBilling db { b with dailyUsageCount := b.dailyUsageCount + 1
                                credits := b.credits - 1 } with
         usageLogs := db.usageLogs ++
           [{ userId := uid, action := "API_RESOURCE", cost := 1 }] }) := by
  simp [checkLimits, htier, Nat.not_le.mpr hcount, not_lt.mpr hcred, allowedResult,
    COST_PER_REQUEST_FREE, DAILY_LIMIT_FREE, setBilling]

/-- C1: for every user whose BillingState has tier FREE,
`dailyUsageCount < 10`, `credits >= 1`, and `lastResetAt` on the current
calendar day (same `getDate()` as now), a guarded call (`guardWithUser`,
to which `accessGuard` also delegates once the user is resolved) returns
`allowed: true`, decrements the user's credits by exactly 1, increments
`dailyUsageCount` by exactly 1, and appends exactly one UsageLog row with
the calling action and the cost charged (1). -/
theorem free_guarded_call_succeeds {db : DB} {uid : String} {b : BillingState}
    {now : JSDate} (hfind : findBilling db uid = some b)
    (htier : b.tier = "FREE") (hcount : b.dailyUsageCount < 10)
    (hcred : 1 ≤ b.credits) (hday : b.lastResetAt.getDate = now.getDate) :
    (guardWithUser uid now db).1 = allowedResult ∧
    findBilling (guardWithUser uid now db).2 uid =
      some { b with dailyUsageCount := b.dailyUsageCount + 1
                    credits := b.credits - 1 } ∧
    (guardWithUser uid now db).2.usageLogs =
      db.usageLogs ++ [{ userId := uid, action := "API_RESOURCE", cost := 1 }] := by
  have hres : guardWithUser uid now db =
      (allowedResult,
       { setBilling db { b with dailyUsageCount := b.dailyUsageCount + 1
                                credits := b.credits - 1 } with
         usageLogs := db.usageLogs ++
           [{ userId := uid, action := "API_RESOURCE", cost := 1 }] }) := by
    unfold guardWithUser checkAccess
    rw [hfind]
    show resetAndCheck b uid now db = _
    unfold resetAndCheck
    rw [if_neg (not_ne_iff.mpr hday)]
    exact checkLimits_free_allow htier hcount hcred
  refine ⟨by rw [hres], ?_, by rw [hres]⟩
  rw [hres]
  have hbu : b.userId = uid := findBilling_userId hfind
  have hb' : ({ b with dailyUsageCount := b.dailyUsageCount + 1
                       credits := b.credits - 1 } : BillingState).userId = uid := hbu
  exact findBilling_setBilling hfind hb'

/-! ## Concrete fixtures used by the witnesses and counterexamples -/

/-- A sample "today". -/
def dToday : JSDate := { year := 2025, month := 5, day := 17 }

/-- The day before `dToday` (different `getDate()`). -/
def dYesterday : JSDate := { year := 2025, month := 5, day := 16 }

/-- A FREE-tier row for user `"u1"` with 5 credits and 3 calls today. -/
def bFree : BillingState :=
  { userId := "u1", tier := "FREE", credits := 5, dailyUsageCount := 3
    lastResetAt := dToday }

/-- A database holding just `bFree`. -/
def dbFree : DB :=
  { apiKeys := [], users := [], billingStates := [bFree], usageLogs := []
    payments := [] }

/-- Witness for C1 at user `"u1"` of `dbFree`. -/
theorem free_guarded_call_succeeds_witness :
    findBilling dbFree "u1" = some bFree ∧
    bFree.tier = "FREE" ∧ bFree.dailyUsageCount < 10 ∧ 1 ≤ bFree.credits ∧
    bFree.lastResetAt.getDate = dToday.getDate ∧
    ((guardWithUser "u1" dToday dbFree).1 = allowedResult ∧
     findBilling (guardWithUser "u1" dToday dbFree).2 "u1" =
       some { bFree with dailyUsageCount := bFree.dailyUsageCount + 1
                         credits := bFree.credits - 1 } ∧
     (guardWithUser "u1" dToday dbFree).2.usageLogs =
       dbFree.usageLogs ++ [{ userId := "u1", action := "API_RESOURCE", cost := 1 }]) :=
  ⟨by decide, by decide, by decide, by decide, by decide,
   free_guarded_call_succeeds (by decide) (by decide) (by decide) (by decide) (by decide)⟩

/-! ## Reduction lemmas for checkAccess -/

/-- When the stored row's day-of-month matches now, no reset happens and the
call reduces to the limit checks on the stored row. -/
theorem checkAccess_same_day {db : DB} {uid : String} {b : BillingState}
    {now : JSDate} (hfind : findBilling db uid = some b)
    (hday : b.lastResetAt.getDate = now.getDate) :
    checkAccess uid now db = checkLimits b uid db := by
  unfold checkAccess
  rw [hfind]
  show resetAndCheck b uid now db = _
  unfold resetAndCheck
  rw [if_neg (not_ne_iff.mpr hday)]

/-- When the stored row's day-of-month differs from now, the counter is
reset to 0, the reset is persisted, and the limit checks run on the reset
row. -/
theorem checkAccess_reset {db : DB} {uid : String} {b : BillingState}
    {now : JSDate} (hfind : findBilling db uid = some b)
    (hday : b.lastResetAt.getDate ≠ now.getDate) :
    checkAccess uid now db =
      checkLimits { b with dailyUsageCount := 0, lastResetAt := now } uid
        (setBilling db { b with dailyUsageCount := 0, lastResetAt := now }) := by
  unfold checkAccess
  rw [hfind]
  show resetAndCheck b uid now db = _
  unfold resetAndCheck
  rw [if_pos hday]

/-- When no row exists, a default row is created (lazily) and, since its
`lastResetAt` is now, the limit checks run on it directly. -/
theorem checkAccess_create {db : DB} {uid : String} {now : JSDate}
    (hfind : findBilling db uid = none) :
    checkAccess uid now db =
      checkLimits (defaultBillingState uid now) uid
        { db with billingStates :=
            db.billingStates ++ [defaultBillingState uid now] } := by
  unfold checkAccess
  rw [hfind]
  show resetAndCheck (defaultBillingState uid now) uid now _ = _
  unfold resetAndCheck
  rw [if_neg (show ¬ ((defaultBillingState uid now).lastResetAt.getDate ≠
    now.getDate) by simp [defaultBillingState])]

/-- A FREE-tier row at or over the daily limit is denied. -/
theorem checkLimits_free_daily {b : BillingState} {uid : String} {db : DB}
    (htier : b.tier = "FREE") (h : 10 ≤ b.dailyUsageCount) :
    checkLimits b uid db = (denyResult "Daily Limit Exceeded" uid, db) := by
  simp [checkLimits, htier, DAILY_LIMIT_FREE, h]

/-- A FREE-tier row under the daily limit but out of credits is denied. -/
theorem checkLimits_free_credits {b : BillingState} {uid : String} {db : DB}
    (htier : b.tier = "FREE") (hc : b.dailyUsageCount < 10)
    (hcr : b.credits < 1) :
    checkLimits b uid db = (denyResult "Insufficient Credits" uid, db) := by
  simp [checkLimits, htier, Nat.not_le.mpr hc, DAILY_LIMIT_FREE,
    COST_PER_REQUEST_FREE, hcr]

/-- C2: for every user whose BillingState has tier FREE and lastResetAt on
the current calendar day (same `getDate()` as now): if
`dailyUsageCount >= 10` the guarded call is denied with reason
`DailyLimitExceeded` (the code string "Daily Limit Exceeded"), taking
priority; otherwise if `credits < 1` it is denied with reason
`InsufficientCredits` ("Insufficient Credits"); in both cases the attached
Payment Request is scoped to this user (its `referenceId` is the user id)
and the database, hence the ledger's `dailyUsageCount` and `credits`, is
unchanged. -/
theorem free_denials_leave_ledger_unchanged {db : DB} {uid : String}
    {b : BillingState} {now : JSDate} (hfind : findBilling db uid = some b)
    (htier : b.tier = "FREE") (hday : b.lastResetAt.getDate = now.getDate) :
    (10 ≤ b.dailyUsageCount →
      guardWithUser uid now db = (denyResult "Daily Limit Exceeded" uid, db)) ∧
    (b.dailyUsageCount < 10 → b.credits < 1 →
      guardWithUser uid now db = (denyResult "Insufficient Credits" uid, db)) ∧
    (∀ r, (denyResult r uid).paymentInfo = some (generatePaymentRequest (some uid))) ∧
    (generatePaymentRequest (some uid)).referenceId = uid := by
  refine ⟨?_, ?_, fun r => rfl, rfl⟩
  · intro h
    unfold guardWithUser
    rw [checkAccess_same_day hfind hday]
    exact checkLimits_free_daily htier h
  · intro hc hcr
    unfold guardWithUser
    rw [checkAccess_same_day hfind hday]
    exact checkLimits_free_credits htier hc hcr

/-- A FREE-tier row for user `"u2"` at the daily limit. -/
def bAtLimit : BillingState :=
  { userId := "u2", tier := "FREE", credits := 5, dailyUsageCount := 10
    lastResetAt := dToday }

/-- A FREE-tier row for user `"u3"` with no credits. -/
def bNoCredits : BillingState :=
  { userId := "u3", tier := "FREE", credits := 0, dailyUsageCount := 3
    lastResetAt := dToday }

/-- A database holding `bAtLimit` and `bNoCredits`. -/
def dbDeny : DB :=
  { apiKeys := [], users := [], billingStates := [bAtLimit, bNoCredits]
    usageLogs := [], payments := [] }

/-- Witness for C2: both denial branches at concrete users of `dbDeny`. -/
theorem free_denials_leave_ledger_unchanged_witness :
    (guardWithUser "u2" dToday dbDeny =
      (denyResult "Daily Limit Exceeded" "u2", dbDeny)) ∧
    (guardWithUser "u3" dToday dbDeny =
      (denyResult "Insufficient Credits" "u3", dbDeny)) ∧
    (generatePaymentRequest (some "u2")).referenceId = "u2" := by
  refine ⟨?_, ?_, ?_⟩
  · exact (@free_denials_leave_ledger_unchanged dbDeny "u2" bAtLimit dToday
      (by decide) (by decide) (by decide)).1 (by decide)
  · exact (@free_denials_leave_ledger_unchanged dbDeny "u3" bNoCredits dToday
      (by decide) (by decide) (by decide)).2.1 (by decide) (by decide)
  · decide

/-- Branch equation: at or over the tier's daily limit the call is denied
and the database untouched. -/
theorem checkLimits_denied_limit {b : BillingState} {uid : String} {db : DB}
    (h : (if b.tier == "PAID" then DAILY_LIMIT_PAID else DAILY_LIMIT_FREE) ≤
      b.dailyUsageCount) :
    checkLimits b uid db = (denyResult "Daily Limit Exceeded" uid, db) := by
  simp only [checkLimits]
  rw [if_pos h]

/-- Branch equation: under the limit, but out of credits on a non-PAID
tier, the call is denied and the database untouched. -/
theorem checkLimits_denied_credits {b : BillingState} {uid : String} {db : DB}
    (h1 : ¬ (if b.tier == "PAID" then DAILY_LIMIT_PAID else DAILY_LIMIT_FREE) ≤
      b.dailyUsageCount)
    (h2 : b.credits < COST_PER_REQUEST_FREE ∧ b.tier ≠ "PAID") :
    checkLimits b uid db = (denyResult "Insufficient Credits" uid, db) := by
  simp only [checkLimits]
  rw [if_neg h1, if_pos h2]

/-- Branch equation: the allowed path updates the billing row and appends
one usage log entry. -/
theorem checkLimits_allowed {b : BillingState} {uid : String} {db : DB}
    (h1 : ¬ (if b.tier == "PAID" then DAILY_LIMIT_PAID else DAILY_LIMIT_FREE) ≤
      b.dailyUsageCount)
    (h2 : ¬ (b.credits < COST_PER_REQUEST_FREE ∧ b.tier ≠ "PAID")) :
    checkLimits b uid db =
      (allowedResult,
       { setBilling db
           { b with
             dailyUsageCount := b.dailyUsageCount + 1,
             credits := b.credits -
               (if b.tier == "PAID" then 0 else COST_PER_REQUEST_FREE) } with
         usageLogs := db.usageLogs ++
           [{ userId := uid, action := "API_RESOURCE",
              cost := if b.tier == "PAID" then 0 else COST_PER_REQUEST_FREE }] }) := by
  simp only [checkLimits]
  rw [if_neg h1, if_neg h2]
  simp only [allowedResult, setBilling_usageLogs]

/-- Shape of the database after `checkLimits` for a user whose row is
present: the row keeps its tier and reset date, loses a credit exactly when
the call is allowed on a non-PAID tier, and gains a usage count exactly
when the call is allowed. -/
theorem checkLimits_shape {db : DB} {uid : String} {b : BillingState}
    (hfind : findBilling db uid = some b) :
    ∃ b', findBilling (checkLimits b uid db).2 uid = some b' ∧
      b'.tier = b.tier ∧
      b'.lastResetAt = b.lastResetAt ∧
      b'.credits = b.credits -
        (if (checkLimits b uid db).1.allowed = true ∧ b.tier ≠ "PAID" then 1 else 0) ∧
      b'.dailyUsageCount = b.dailyUsageCount +
        (if (checkLimits b uid db).1.allowed = true then 1 else 0) := by
  by_cases h1 : (if b.tier == "PAID" then DAILY_LIMIT_PAID else DAILY_LIMIT_FREE) ≤
      b.dailyUsageCount
  · rw [checkLimits_denied_limit h1]
    exact ⟨b, hfind, rfl, rfl, by simp [denyResult], by simp [denyResult]⟩
  · by_cases h2 : b.credits < COST_PER_REQUEST_FREE ∧ b.tier ≠ "PAID"
    · rw [checkLimits_denied_credits h1 h2]
      exact ⟨b, hfind, rfl, rfl, by simp [denyResult], by simp [denyResult]⟩
    · rw [checkLimits_allowed h1 h2]
      have hbu : b.userId = uid := findBilling_userId hfind
      have hru : ({ b with
            dailyUsageCount := b.dailyUsageCount + 1,
            credits := b.credits -
              (if b.tier == "PAID" then 0 else COST_PER_REQUEST_FREE) } :
          BillingState).userId = uid := hbu
      refine ⟨_, findBilling_setBilling hfind hru, rfl, rfl, ?_, ?_⟩
      · by_cases ht : b.tier = "PAID" <;>
          simp [allowedResult, ht, COST_PER_REQUEST_FREE]
      · simp [allowedResult]

/-- Shape of the database after `checkAccess` for a user whose row is
present: tier preserved, reset applied exactly when the stored day-of-month
differs from now, one credit deducted exactly on an allowed non-PAID call,
and the usage count is the (possibly reset) count plus one exactly on an
allowed call. -/
theorem checkAccess_shape {db : DB} {uid : String} {b : BillingState}
    {now : JSDate} (hfind : findBilling db uid = some b) :
    ∃ b', findBilling (checkAccess uid now db).2 uid = some b' ∧
      b'.tier = b.tier ∧
      b'.lastResetAt =
        (if b.lastResetAt.getDate ≠ now.getDate then now else b.lastResetAt) ∧
      b'.credits = b.credits -
        (if (checkAccess uid now db).1.allowed = true ∧ b.tier ≠ "PAID" then 1 else 0) ∧
      b'.dailyUsageCount =
        (if b.lastResetAt.getDate ≠ now.getDate then 0 else b.dailyUsageCount) +
        (if (checkAccess uid now db).1.allowed = true then 1 else 0) := by
  by_cases hday : b.lastResetAt.getDate = now.getDate
  · rw [checkAccess_same_day hfind hday]
    obtain ⟨b', h1, h2, h3, h4, h5⟩ := checkLimits_shape hfind
    exact ⟨b', h1, h2, by rw [h3]; simp [hday], h4, by rw [h5]; simp [hday]⟩
  · have hbu : b.userId = uid := findBilling_userId hfind
    have hru : ({ b with dailyUsageCount := 0, lastResetAt := now } :
        BillingState).userId = uid := hbu
    have hfr : findBilling
        (setBilling db { b with dailyUsageCount := 0, lastResetAt := now }) uid =
        some { b with dailyUsageCount := 0, lastResetAt := now } :=
      findBilling_setBilling hfind hru
    rw [checkAccess_reset hfind hday]
    obtain ⟨b', h1, h2, h3, h4, h5⟩ := checkLimits_shape hfr
    exact ⟨b', h1, h2, by rw [h3]; simp [hday], by rw [h4], by rw [h5]; simp [hday]⟩

/-- C3: for every user whose BillingState has tier PAID, no guarded call
ever decreases credits (the post-state credits equal the pre-state credits,
including when credits are 0); with the row on the current day, calls with
`dailyUsageCount < 1000` are allowed, and once `dailyUsageCount` reaches
1000 the call is denied with reason `DailyLimitExceeded` ("Daily Limit
Exceeded"). -/
theorem paid_tier_never_decrements_credits {db : DB} {uid : String}
    {b : BillingState} {now : JSDate} (hfind : findBilling db uid = some b)
    (htier : b.tier = "PAID") :
    (∃ b', findBilling (guardWithUser uid now db).2 uid = some b' ∧
      b'.credits = b.credits) ∧
    (b.lastResetAt.getDate = now.getDate → b.dailyUsageCount < 1000 →
      (guardWithUser uid now db).1 = allowedResult) ∧
    (b.lastResetAt.getDate = now.getDate → 1000 ≤ b.dailyUsageCount →
      guardWithUser uid now db = (denyResult "Daily Limit Exceeded" uid, db)) := by
  refine ⟨?_, ?_, ?_⟩
  · unfold guardWithUser
    obtain ⟨b', h1, _, _, h4, _⟩ := checkAccess_shape hfind
    exact ⟨b', h1, by rw [h4]; simp [htier]⟩
  · intro hday hcount
    unfold guardWithUser
    rw [checkAccess_same_day hfind hday]
    rw [checkLimits_allowed (by simp [htier, DAILY_LIMIT_PAID, Nat.not_le.mpr hcount])
      (by simp [htier])]
  · intro hday hcount
    unfold guardWithUser
    rw [checkAccess_same_day hfind hday]
    exact checkLimits_denied_limit (by simp [htier, DAILY_LIMIT_PAID, hcount])

/-- A PAID-tier row for user `"p1"` with zero credits, under the cap. -/
def bPaid : BillingState :=
  { userId := "p1", tier := "PAID", credits := 0, dailyUsageCount := 5
    lastResetAt := dToday }

/-- A PAID-tier row for user `"p2"` at the 1000-call cap. -/
def bPaidMax : BillingState :=
  { userId := "p2", tier := "PAID", credits := 7, dailyUsageCount := 1000
    lastResetAt := dToday }

/-- A database holding `bPaid` and `bPaidMax`. -/
def dbPaid : DB :=
  { apiKeys := [], users := [], billingStates := [bPaid, bPaidMax]
    usageLogs := [], payments := [] }

/-- Witness for C3 at the concrete PAID users of `dbPaid`: the zero-credit
user is still allowed and keeps 0 credits; the capped user is denied. -/
theorem paid_tier_never_decrements_credits_witness :
    (∃ b', findBilling (guardWithUser "p1" dToday dbPaid).2 "p1" = some b' ∧
      b'.credits = bPaid.credits) ∧
    (guardWithUser "p1" dToday dbPaid).1 = allowedResult ∧
    guardWithUser "p2" dToday dbPaid =
      (denyResult "Daily Limit Exceeded" "p2", dbPaid) := by
  have h1 := @paid_tier_never_decrements_credits dbPaid "p1" bPaid dToday
    (by decide) (by decide)
  have h2 := @paid_tier_never_decrements_credits dbPaid "p2" bPaidMax dToday
    (by decide) (by decide)
  exact ⟨h1.1, h1.2.1 (by decide) (by decide), h2.2.2 (by decide) (by decide)⟩

/-- A FREE-tier row at the daily limit, out of credits, last reset
yesterday. -/
def bBoundaryBroke : BillingState :=
  { userId := "u4", tier := "FREE", credits := 0, dailyUsageCount := 10
    lastResetAt := dYesterday }

/-- A database holding just `bBoundaryBroke`. -/
def dbBoundaryBroke : DB :=
  { apiKeys := [], users := [], billingStates := [bBoundaryBroke]
    usageLogs := [], payments := [] }

/-- Counterexample to C4 as stated: a FREE user with `lastResetAt` =
yesterday and `dailyUsageCount` = 10 is NOT always allowed on the first
call of the new calendar day: with 0 credits the call is denied with
"Insufficient Credits" (the reset to 0 does happen, but the credit check
still fails). -/
theorem day_boundary_allowed_counterexample :
    bBoundaryBroke.tier = "FREE" ∧ bBoundaryBroke.dailyUsageCount = 10 ∧
    bBoundaryBroke.lastResetAt.getDate ≠ dToday.getDate ∧
    (guardWithUser "u4" dToday dbBoundaryBroke).1.allowed = false ∧
    (guardWithUser "u4" dToday dbBoundaryBroke).1.reason =
      some "Insufficient Credits" := by decide

/-- C4 (amended): on every guarded call for a user with a stored row,
`dailyUsageCount` is reset to 0 and `lastResetAt` set to now exactly when
the day-of-month of `lastResetAt` differs from that of now (the spec's
calendar-day comparison, day-of-month granularity); a second call on the
same calendar day never resets again (the post-state keeps its reset stamp
and its count is only ever incremented, never zeroed); and a FREE user with
`lastResetAt` = yesterday, `dailyUsageCount` = 10 AND at least 1 credit is
allowed on the first call of the new day, with the count reset to 0 then
incremented to 1. -/
theorem daily_reset_exactly_on_day_change {db : DB} {uid : String}
    {b : BillingState} {now : JSDate} (hfind : findBilling db uid = some b) :
    (∃ b', findBilling (guardWithUser uid now db).2 uid = some b' ∧
      b'.lastResetAt =
        (if b.lastResetAt.getDate ≠ now.getDate then now else b.lastResetAt) ∧
      b'.dailyUsageCount =
        (if b.lastResetAt.getDate ≠ now.getDate then 0 else b.dailyUsageCount) +
        (if (guardWithUser uid now db).1.allowed = true then 1 else 0) ∧
      (∀ now2 : JSDate, now2.getDate = now.getDate →
        ∃ b'', findBilling
            (guardWithUser uid now2 (guardWithUser uid now db).2).2 uid = some b'' ∧
          b''.lastResetAt = b'.lastResetAt ∧
          b''.dailyUsageCount = b'.dailyUsageCount +
            (if (guardWithUser uid now2 (guardWithUser uid now db).2).1.allowed = true
             then 1 else 0))) ∧
    (b.tier = "FREE" → b.dailyUsageCount = 10 → 1 ≤ b.credits →
      b.lastResetAt.getDate ≠ now.getDate →
      (guardWithUser uid now db).1 = allowedResult ∧
      ∃ b', findBilling (guardWithUser uid now db).2 uid = some b' ∧
        b'.dailyUsageCount = 1) := by
  unfold guardWithUser
  constructor
  · obtain ⟨b', h1, _, h3, _, h5⟩ := checkAccess_shape hfind
    refine ⟨b', h1, h3, h5, ?_⟩
    intro now2 hnow2
    have hday' : b'.lastResetAt.getDate = now2.getDate := by
      rw [h3]
      by_cases hd : b.lastResetAt.getDate ≠ now.getDate
      · simp [hd, hnow2]
      · rw [if_neg hd]
        rw [not_ne_iff] at hd
        rw [hd, hnow2]
    obtain ⟨b'', g1, _, g3, _, g5⟩ := checkAccess_shape h1
    exact ⟨b'', g1, by rw [g3]; simp [hday'],
      by rw [g5]; simp [hday']⟩
  · intro ht hc10 hcr hday
    rw [checkAccess_reset hfind hday]
    have hbu : b.userId = uid := findBilling_userId hfind
    have hru : ({ b with dailyUsageCount := 0, lastResetAt := now } :
        BillingState).userId = uid := hbu
    have htr : ({ b with dailyUsageCount := 0, lastResetAt := now } :
        BillingState).tier = "FREE" := ht
    have hcr' : 1 ≤ ({ b with dailyUsageCount := 0, lastResetAt := now } :
        BillingState).credits := hcr
    rw [checkLimits_free_allow htr (show (0 : Nat) < 10 by norm_num) hcr']
    refine ⟨rfl, ?_⟩
    have hfr : findBilling
        (setBilling db { b with dailyUsageCount := 0, lastResetAt := now }) uid =
        some { b with dailyUsageCount := 0, lastResetAt := now } :=
      findBilling_setBilling hfind hru
    have hru2 : ({ b with
          dailyUsageCount := 0 + 1,
          credits := b.credits - 1,
          lastResetAt := now } : BillingState).userId = uid := hbu
    exact ⟨_, findBilling_setBilling hfr hru2, rfl⟩

/-- A FREE-tier row at the daily limit with credits left, last reset
yesterday. -/
def bBoundary : BillingState :=
  { userId := "u5", tier := "FREE", credits := 20, dailyUsageCount := 10
    lastResetAt := dYesterday }

/-- A database holding just `bBoundary`. -/
def dbBoundary : DB :=
  { apiKeys := [], users := [], billingStates := [bBoundary]
    usageLogs := [], payments := [] }

/-- Witness for the amended C4: the concrete day-boundary scenario with
credits available is allowed and ends with `dailyUsageCount` 1. -/
theorem daily_reset_exactly_on_day_change_witness :
    (guardWithUser "u5" dToday dbBoundary).1 = allowedResult ∧
    ∃ b', findBilling (guardWithUser "u5" dToday dbBoundary).2 "u5" = some b' ∧
      b'.dailyUsageCount = 1 := by
  have h := @daily_reset_exactly_on_day_change dbBoundary "u5" bBoundary dToday
    (by decide)
  exact h.2 (by decide) (by decide) (by decide) (by decide)

/-- List form: appending a row for a user who has none makes the lookup
return it. -/
theorem find?_append_none {l : List BillingState} {uid : String}
    {b : BillingState} (h : l.find? (fun x => x.userId == uid) = none)
    (hb : b.userId = uid) :
    (l ++ [b]).find? (fun x => x.userId == uid) = some b := by
  induction l with
  | nil => simp [List.find?, hb]
  | cons a t ih =>
    by_cases ha : a.userId = uid
    · rw [List.find?_cons_of_pos _ (by simp [ha])] at h
      exact absurd h (by simp)
    · rw [List.find?_cons_of_neg _ (by simp [ha])] at h
      rw [List.cons_append, List.find?_cons_of_neg _ (by simp [ha])]
      exact ih h

/-- Appending a row for a user who has none makes the lookup return it. -/
theorem findBilling_append {db : DB} {uid : String} {b : BillingState}
    (h : findBilling db uid = none) (hb : b.userId = uid) :
    findBilling { db with billingStates := db.billingStates ++ [b] } uid =
      some b := by
  unfold findBilling at h ⊢
  exact find?_append_none h hb

/-- C5: `mockProcessPayment(txHash, walletAddress, userId)` always appends
one PaymentRecord with status COMPLETED and returns success with new tier
PAID; for a user with no prior BillingState it creates one with tier PAID,
credits 120 and dailyUsageCount 0; for a user with an existing BillingState
it sets the tier to PAID and increments credits by exactly 100, leaving
dailyUsageCount (and the reset stamp) untouched. -/
theorem mockProcessPayment_spec (tx w uid : String) (now : JSDate) (db : DB) :
    (mockProcessPayment tx w uid now db).1 = (true, "PAID") ∧
    (mockProcessPayment tx w uid now db).2.payments = db.payments ++
      [{ txHash := tx, walletAddress := w, userId := uid, amount := 10,
         status := "COMPLETED" }] ∧
    (findBilling db uid = none →
      findBilling (mockProcessPayment tx w uid now db).2 uid =
        some { userId := uid, tier := "PAID", credits := 120,
               dailyUsageCount := 0, lastResetAt := now }) ∧
    (∀ b, findBilling db uid = some b →
      findBilling (mockProcessPayment tx w uid now db).2 uid =
        some { b with tier := "PAID", credits := b.credits + 100 }) := by
  refine ⟨rfl, ?_, ?_, ?_⟩
  · simp only [mockProcessPayment]
    split
    · rfl
    · rfl
  · intro h
    simp only [mockProcessPayment]
    split
    · rename_i heq
      have h9 : findBilling db uid = none := heq
      exact findBilling_append h9 rfl
    · rename_i x heq
      have hx : findBilling db uid = some x := heq
      rw [h] at hx
      cases hx
  · intro b h
    simp only [mockProcessPayment]
    split
    · rename_i heq
      have h9 : findBilling db uid = none := heq
      rw [h] at h9
      cases h9
    · rename_i x heq
      have hx : findBilling db uid = some x := heq
      rw [h] at hx
      injection hx with hx
      subst hx
      have hbu : b.userId = uid := findBilling_userId h
      have h1 : findBilling
          { db with payments := db.payments ++
            [{ txHash := tx, walletAddress := w, userId := uid, amount := 10,
               status := "COMPLETED" }] } uid = some b := h
      have hru : ({ b with tier := "PAID", credits := b.credits + 100 } :
          BillingState).userId = uid := hbu
      exact findBilling_setBilling h1 hru

/-- An empty database. -/
def dbEmpty : DB :=
  { apiKeys := [], users := [], billingStates := [], usageLogs := []
    payments := [] }

/-- Witness for C5: the spec's concrete scenario, on a user with no prior
row (credits 120) and on a FREE user with 5 credits (credits 105). -/
theorem mockProcessPayment_spec_witness :
    ((mockProcessPayment "0xabc" "0xwallet" "user1" dToday dbEmpty).1 =
      (true, "PAID") ∧
     findBilling (mockProcessPayment "0xabc" "0xwallet" "user1" dToday dbEmpty).2
       "user1" =
       some { userId := "user1", tier := "PAID", credits := 120,
              dailyUsageCount := 0, lastResetAt := dToday }) ∧
    (findBilling (mockProcessPayment "0xabc" "0xwallet" "u1" dToday dbFree).2
       "u1" = some { bFree with tier := "PAID", credits := bFree.credits + 100 } ∧
     bFree.credits + 100 = 105) := by
  have h1 := mockProcessPayment_spec "0xabc" "0xwallet" "user1" dToday dbEmpty
  have h2 := mockProcessPayment_spec "0xabc" "0xwallet" "u1" dToday dbFree
  exact ⟨⟨h1.1, h1.2.2.1 (by decide)⟩, ⟨h2.2.2.2 bFree (by decide), by decide⟩⟩

/-- C6: for every resolved user id with no existing BillingState, the first
guarded call creates a row with tier FREE, credits 20, dailyUsageCount 0
and lastResetAt = now before evaluating limits; the fresh row then passes
the limits, so the call is allowed and the persisted row shows credits
20 - 1 = 19 and dailyUsageCount 0 + 1 = 1, with one usage row logged.
The creation defaults are modelled from the spec (the Prisma schema is not
among the sources). -/
theorem first_call_creates_default_billing {db : DB} {uid : String}
    {now : JSDate} (hfind : findBilling db uid = none) :
    defaultBillingState uid now =
      { userId := uid, tier := "FREE", credits := 20, dailyUsageCount := 0,
        lastResetAt := now } ∧
    (guardWithUser uid now db).1 = allowedResult ∧
    findBilling (guardWithUser uid now db).2 uid =
      some { userId := uid, tier := "FREE", credits := 19, dailyUsageCount := 1,
             lastResetAt := now } ∧
    (guardWithUser uid now db).2.usageLogs =
      db.usageLogs ++ [{ userId := uid, action := "API_RESOURCE", cost := 1 }] := by
  unfold guardWithUser
  rw [checkAccess_create hfind]
  rw [checkLimits_free_allow (show (defaultBillingState uid now).tier = "FREE"
    from rfl) (show (0 : Nat) < 10 by norm_num) (show (1 : Int) ≤ 20 by norm_num)]
  have hfindC : findBilling
      { db with billingStates := db.billingStates ++ [defaultBillingState uid now] }
      uid = some (defaultBillingState uid now) :=
    findBilling_append hfind rfl
  have hru : ({ defaultBillingState uid now with
      dailyUsageCount := (defaultBillingState uid now).dailyUsageCount + 1,
      credits := (defaultBillingState uid now).credits - 1 } :
      BillingState).userId = uid := rfl
  exact ⟨rfl, rfl, findBilling_setBilling hfindC hru, rfl⟩

/-- Witness for C6: the first call of user `"fresh"` on the empty
database. -/
theorem first_call_creates_default_billing_witness :
    (guardWithUser "fresh" dToday dbEmpty).1 = allowedResult ∧
    findBilling (guardWithUser "fresh" dToday dbEmpty).2 "fresh" =
      some { userId := "fresh", tier := "FREE", credits := 19,
             dailyUsageCount := 1, lastResetAt := dToday } ∧
    (guardWithUser "fresh" dToday dbEmpty).2.usageLogs =
      [{ userId := "fresh", action := "API_RESOURCE", cost := 1 }] := by
  have h := @first_call_creates_default_billing dbEmpty "fresh" dToday (by decide)
  exact ⟨h.2.1, h.2.2.1, h.2.2.2⟩

/-- C7: a call to `accessGuard` with no API key and either no wallet or a
wallet matching no user yields a denial with reason
`AuthenticationRequired` ("Authentication Required"), `paymentRequired`
true, and a non-null `paymentInfo` with amount 10.00, currency USDC, the
fixed configured address and network, and `referenceId` "anonymous"; the
database is returned unchanged (no side effects). -/
theorem anonymous_denial (now : JSDate) (db : DB) :
    accessGuard none none now db = (anonymousResult, db) ∧
    (∀ w : String, resolveWallet db w = none →
      accessGuard none (some w) now db = (anonymousResult, db)) ∧
    anonymousResult.reason = some "Authentication Required" ∧
    anonymousResult.paymentRequired = some true ∧
    anonymousResult.paymentInfo =
      some { amount := 10, currency := "USDC",
             address := "0x742d35Cc6634C0532925a3b844Bc454e4438f44e",
             network := "Base Sepolia", referenceId := "anonymous" } := by
  refine ⟨rfl, ?_, rfl, rfl, rfl⟩
  intro w hw
  by_cases hwe : w = ""
  · subst hwe
    rfl
  · simp [accessGuard, jsTruthy, hwe, hw, guardResolved]

/-- Witness for C7: anonymous and unmatched-wallet calls on the empty
database. -/
theorem anonymous_denial_witness :
    accessGuard none none dToday dbEmpty = (anonymousResult, dbEmpty) ∧
    accessGuard none (some "0xnobody") dToday dbEmpty =
      (anonymousResult, dbEmpty) := by
  have h := anonymous_denial dToday dbEmpty
  exact ⟨h.1, h.2.1 "0xnobody" (by decide)⟩

/-- C9: a call to `accessGuard` with a supplied API key that is absent from
storage or inactive is denied with reason `InvalidCredential` ("Invalid or
Inactive API Key") and the database is returned unchanged: the ledger logic
is never reached (no BillingState read, created or mutated, no UsageLog
appended). -/
theorem invalid_api_key_denied {k : String} (hk : k ≠ "") (ws : Option String)
    {now : JSDate} {db : DB}
    (h : findAPIKey db k = none ∨
      ∃ a, findAPIKey db k = some a ∧ a.isActive = false) :
    accessGuard (some k) ws now db = (invalidKeyResult, db) := by
  have ht : jsTruthy (some k) = true := by simp [jsTruthy, hk]
  rcases h with hnone | ⟨a, ha, hact⟩
  · simp [accessGuard, ht, hnone]
  · simp [accessGuard, ht, ha, hact]

/-- An inactive API key owned by user `"u1"`. -/
def keyInactive : APIKey :=
  { id := 1, key := "k-dead", userId := "u1", isActive := false
    usageCount := 7, lastUsedAt := none }

/-- A database holding the inactive key and the `"u1"` billing row. -/
def dbKeys : DB :=
  { apiKeys := [keyInactive], users := [], billingStates := [bFree]
    usageLogs := [], payments := [] }

/-- Witness for C9: an unknown key and an inactive key on `dbKeys`. -/
theorem invalid_api_key_denied_witness :
    accessGuard (some "missing") none dToday dbKeys = (invalidKeyResult, dbKeys) ∧
    accessGuard (some "k-dead") none dToday dbKeys = (invalidKeyResult, dbKeys) := by
  constructor
  · exact invalid_api_key_denied (by decide) none (Or.inl (by decide))
  · exact invalid_api_key_denied (by decide) none
      (Or.inr ⟨keyInactive, by decide, by decide⟩)

/-- List form of API-key usage tracking: updating the row with the found
key's id makes the key lookup return the updated row. -/
theorem find?_apiKey_track {l : List APIKey} {k : String} {a : APIKey}
    {now : JSDate} (h : l.find? (fun x => x.key == k) = some a) :
    (l.map (fun x => if x.id == a.id
        then { x with usageCount := x.usageCount + 1, lastUsedAt := some now }
        else x)).find? (fun x => x.key == k) =
      some { a with usageCount := a.usageCount + 1, lastUsedAt := some now } := by
  induction l with
  | nil => simp at h
  | cons x t ih =>
    by_cases hx : x.key = k
    · rw [List.find?_cons_of_pos _ (by simp [hx])] at h
      injection h with h
      subst h
      simp only [List.map_cons]
      rw [show (if x.id == x.id
          then ({ x with usageCount := x.usageCount + 1, lastUsedAt := some now } : APIKey)
          else x) =
          { x with usageCount := x.usageCount + 1, lastUsedAt := some now } from by simp]
      rw [List.find?_cons_of_pos _ (by simp [hx])]
    · rw [List.find?_cons_of_neg _ (by simp [hx])] at h
      simp only [List.map_cons]
      rw [List.find?_cons_of_neg _ (by simp [apply_ite, hx])]
      exact ih h

/-- The quota logic never touches the APIKey table. -/
theorem checkLimits_apiKeys (b : BillingState) (uid : String) (db : DB) :
    (checkLimits b uid db).2.apiKeys = db.apiKeys := by
  simp only [checkLimits]
  repeat' split
  all_goals rfl

/-- Neither branch of `checkAccess` touches the APIKey table. -/
theorem checkAccess_apiKeys (uid : String) (now : JSDate) (db : DB) :
    (checkAccess uid now db).2.apiKeys = db.apiKeys := by
  simp only [checkAccess]
  split
  · simp only [resetAndCheck]
    split
    · rw [checkLimits_apiKeys, setBilling_apiKeys]
    · rw [checkLimits_apiKeys]
  · simp only [resetAndCheck]
    split
    · rw [checkLimits_apiKeys, setBilling_apiKeys]
    · rw [checkLimits_apiKeys]

/-- The post-resolution guard never touches the APIKey table. -/
theorem guardResolved_apiKeys (u : Option String) (now : JSDate) (db : DB) :
    (guardResolved u now db).2.apiKeys = db.apiKeys := by
  cases u with
  | none => rfl
  | some uid =>
    simp only [guardResolved]
    split
    · rfl
    · exact checkAccess_apiKeys uid now db

/-- C10: a call to `accessGuard` with a valid, active API key increments
that Credential's `usageCount` by exactly 1 and stamps `lastUsedAt` with
now, whatever the subsequent quota evaluation decides (the statement is
unconditional in the database, so it covers denials; the update is never
rolled back). -/
theorem valid_key_usage_tracked {k : String} (hk : k ≠ "") (ws : Option String)
    {a : APIKey} {now : JSDate} {db : DB}
    (hfind : findAPIKey db k = some a) (hact : a.isActive = true) :
    findAPIKey (accessGuard (some k) ws now db).2 k =
      some { a with usageCount := a.usageCount + 1, lastUsedAt := some now } := by
  have ht : jsTruthy (some k) = true := by simp [jsTruthy, hk]
  have hstep : accessGuard (some k) ws now db =
      guardResolved (some a.userId) now (trackAPIKeyUsage db a.id now) := by
    simp [accessGuard, ht, hfind, hact]
  rw [hstep]
  have h1 : (guardResolved (some a.userId) now
      (trackAPIKeyUsage db a.id now)).2.apiKeys =
      (trackAPIKeyUsage db a.id now).apiKeys := guardResolved_apiKeys _ _ _
  unfold findAPIKey
  rw [h1]
  unfold findAPIKey at hfind
  exact find?_apiKey_track hfind

/-- An active API key owned by the out-of-credit user `"u3"`. -/
def keyActive : APIKey :=
  { id := 2, key := "k-live", userId := "u3", isActive := true
    usageCount := 7, lastUsedAt := none }

/-- A database holding the active key and the zero-credit `"u3"` row. -/
def dbKeyLive : DB :=
  { apiKeys := [keyActive], users := [], billingStates := [bNoCredits]
    usageLogs := [], payments := [] }

/-- Witness for C10: the call through `"k-live"` is denied (user `"u3"` has
no credits) yet the key's usage counter is still incremented and stamped. -/
theorem valid_key_usage_tracked_witness :
    (accessGuard (some "k-live") none dToday dbKeyLive).1.allowed = false ∧
    findAPIKey (accessGuard (some "k-live") none dToday dbKeyLive).2 "k-live" =
      some { keyActive with usageCount := keyActive.usageCount + 1
                            lastUsedAt := some dToday } := by
  constructor
  · decide
  · exact valid_key_usage_tracked (by decide) none (by decide) (by decide)

/-- Counterexample to C8 as stated: a denial whose reason is the constant
string "Invalid or Inactive API Key", which is none of the exact tags
`AuthenticationRequired`, `DailyLimitExceeded`, `InsufficientCredits`,
`InvalidCredential` claimed by the spec (the code uses spaced, human-readable
constants, not the camel-case tag spellings). -/
theorem denial_reason_tag_counterexample :
    (accessGuard (some "badkey") none dToday dbEmpty).1.allowed = false ∧
    (accessGuard (some "badkey") none dToday dbEmpty).1.reason =
      some "Invalid or Inactive API Key" ∧
    ¬ ((accessGuard (some "badkey") none dToday dbEmpty).1.reason =
        some "AuthenticationRequired" ∨
       (accessGuard (some "badkey") none dToday dbEmpty).1.reason =
        some "DailyLimitExceeded" ∨
       (accessGuard (some "badkey") none dToday dbEmpty).1.reason =
        some "InsufficientCredits" ∨
       (accessGuard (some "badkey") none dToday dbEmpty).1.reason =
        some "InvalidCredential") := by decide

/-- Every outcome of `checkLimits` is the allowed result or one of the two
policy denials. -/
theorem checkLimits_result_cases (b : BillingState) (uid : String) (db : DB) :
    (checkLimits b uid db).1 = allowedResult ∨
    (checkLimits b uid db).1 = denyResult "Daily Limit Exceeded" uid ∨
    (checkLimits b uid db).1 = denyResult "Insufficient Credits" uid := by
  simp only [checkLimits]
  repeat' split
  all_goals simp [allowedResult]

/-- Every outcome of `checkAccess` is the allowed result or one of the two
policy denials. -/
theorem checkAccess_result_cases (uid : String) (now : JSDate) (db : DB) :
    (checkAccess uid now db).1 = allowedResult ∨
    (checkAccess uid now db).1 = denyResult "Daily Limit Exceeded" uid ∨
    (checkAccess uid now db).1 = denyResult "Insufficient Credits" uid := by
  simp only [checkAccess]
  split
  · simp only [resetAndCheck]
    split
    · exact checkLimits_result_cases _ _ _
    · exact checkLimits_result_cases _ _ _
  · simp only [resetAndCheck]
    split
    · exact checkLimits_result_cases _ _ _
    · exact checkLimits_result_cases _ _ _

/-- Every outcome of `guardResolved` is the anonymous denial, the allowed
result, or one of the two policy denials. -/
theorem guardResolved_result_cases (u : Option String) (now : JSDate) (db : DB) :
    (guardResolved u now db).1 = anonymousResult ∨
    (guardResolved u now db).1 = allowedResult ∨
    ∃ v, (guardResolved u now db).1 = denyResult "Daily Limit Exceeded" v ∨
      (guardResolved u now db).1 = denyResult "Insufficient Credits" v := by
  cases u with
  | none => exact Or.inl rfl
  | some uid =>
    simp only [guardResolved]
    split
    · exact Or.inl rfl
    · rcases checkAccess_result_cases uid now db with h | h | h
      · exact Or.inr (Or.inl h)
      · exact Or.inr (Or.inr ⟨uid, Or.inl h⟩)
      · exact Or.inr (Or.inr ⟨uid, Or.inr h⟩)

/-- Every outcome of `accessGuard` is the invalid-key denial, the anonymous
denial, the allowed result, or one of the two policy denials. -/
theorem accessGuard_result_cases (aks ws : Option String) (now : JSDate)
    (db : DB) :
    (accessGuard aks ws now db).1 = invalidKeyResult ∨
    (accessGuard aks ws now db).1 = anonymousResult ∨
    (accessGuard aks ws now db).1 = allowedResult ∨
    ∃ v, (accessGuard aks ws now db).1 = denyResult "Daily Limit Exceeded" v ∨
      (accessGuard aks ws now db).1 = denyResult "Insufficient Credits" v := by
  simp only [accessGuard]
  split
  · split
    · exact Or.inl rfl
    · split
      · rcases guardResolved_result_cases _ now (trackAPIKeyUsage db _ now)
          with h | h | ⟨v, h⟩
        · exact Or.inr (Or.inl h)
        · exact Or.inr (Or.inr (Or.inl h))
        · exact Or.inr (Or.inr (Or.inr ⟨v, h⟩))
      · exact Or.inl rfl
  · split
    · rcases guardResolved_result_cases _ now db with h | h | ⟨v, h⟩
      · exact Or.inr (Or.inl h)
      · exact Or.inr (Or.inr (Or.inl h))
      · exact Or.inr (Or.inr (Or.inr ⟨v, h⟩))
    · rcases guardResolved_result_cases none now db with h | h | ⟨v, h⟩
      · exact Or.inr (Or.inl h)
      · exact Or.inr (Or.inr (Or.inl h))
      · exact Or.inr (Or.inr (Or.inr ⟨v, h⟩))

/-- C8 (amended): every denial produced by `accessGuard` or `guardWithUser`
carries a reason drawn from the fixed four-element set of constant strings
"Invalid or Inactive API Key", "Authentication Required", "Daily Limit
Exceeded", "Insufficient Credits" (one constant per failure category, never
arbitrary free text, but spelled with spaces rather than as the camel-case
tags named in the spec). -/
theorem denial_reasons_fixed_set (aks ws : Option String) (uid : String)
    (now : JSDate) (db : DB) :
    ((accessGuard aks ws now db).1.allowed = false →
      ∃ s, (accessGuard aks ws now db).1.reason = some s ∧
        (s = "Invalid or Inactive API Key" ∨ s = "Authentication Required" ∨
         s = "Daily Limit Exceeded" ∨ s = "Insufficient Credits")) ∧
    ((guardWithUser uid now db).1.allowed = false →
      ∃ s, (guardWithUser uid now db).1.reason = some s ∧
        (s = "Invalid or Inactive API Key" ∨ s = "Authentication Required" ∨
         s = "Daily Limit Exceeded" ∨ s = "Insufficient Credits")) := by
  constructor
  · intro hdenied
    rcases accessGuard_result_cases aks ws now db with h | h | h | ⟨v, h | h⟩
    · exact ⟨_, by rw [h]; rfl, Or.inl rfl⟩
    · exact ⟨_, by rw [h]; rfl, Or.inr (Or.inl rfl)⟩
    · rw [h] at hdenied
      exact absurd hdenied (by simp [allowedResult])
    · exact ⟨_, by rw [h]; rfl, Or.inr (Or.inr (Or.inl rfl))⟩
    · exact ⟨_, by rw [h]; rfl, Or.inr (Or.inr (Or.inr rfl))⟩
  · intro hdenied
    unfold guardWithUser at *
    rcases checkAccess_result_cases uid now db with h | h | h
    · rw [h] at hdenied
      exact absurd hdenied (by simp [allowedResult])
    · exact ⟨_, by rw [h]; rfl, Or.inr (Or.inr (Or.inl rfl))⟩
    · exact ⟨_, by rw [h]; rfl, Or.inr (Or.inr (Or.inr rfl))⟩

/-- Witness for the amended C8: an anonymous denial and a daily-limit
denial, both with reasons in the fixed set. -/
theorem denial_reasons_fixed_set_witness :
    (∃ s, (accessGuard none none dToday dbEmpty).1.reason = some s ∧
      (s = "Invalid or Inactive API Key" ∨ s = "Authentication Required" ∨
       s = "Daily Limit Exceeded" ∨ s = "Insufficient Credits")) ∧
    (∃ s, (guardWithUser "u2" dToday dbDeny).1.reason = some s ∧
      (s = "Invalid or Inactive API Key" ∨ s = "Authentication Required" ∨
       s = "Daily Limit Exceeded" ∨ s = "Insufficient Credits")) := by
  exact ⟨(denial_reasons_fixed_set none none "u2" dToday dbEmpty).1 (by decide),
    (denial_reasons_fixed_set none none "u2" dToday dbDeny).2 (by decide)⟩
